import Mathlib

/-
  Verification development for the OpenNN recurrent-layer core
  (src/opennn/long_short_term_memory_layer.h, src/opennn/multilayer_perceptron.h,
  src/opennn/roc_area_error.h, src/tests/unscaling_layer_test.cpp).

  The repository ships the LSTM layer as a header: the member declarations,
  the enum of activation functions and the default member values are in
  src/opennn/long_short_term_memory_layer.h, while the function bodies are
  not part of the sources given.  Definitions whose doc comment starts with
  "Modelled from the spec:" embed those missing bodies faithfully from the
  specification text; everything else is embedded from the source files.
-/

open BigOperators

namespace OpenNN

/-- Enumeration of available activation functions for the long short term
memory layer, from src/opennn/long_short_term_memory_layer.h lines 41-43. -/
inductive ActivationFunction
  | Threshold
  | SymmetricThreshold
  | Logistic
  | HyperbolicTangent
  | Linear
  | RectifiedLinear
  | ExponentialLinear
  | ScaledExponentialLinear
  | SoftPlus
  | SoftSign
  | HardSigmoid
deriving DecidableEq, Repr, Inhabited

/-- Modelled from the spec: scalar activation value for each of the 11
variants (spec section 4.1); the bodies of the calculate_activations members
declared in src/opennn/long_short_term_memory_layer.h are not under src/.
Piecewise variants are written in branch form, as piecewise C++ code is. -/
noncomputable def activation : ActivationFunction → ℝ → ℝ
  | ActivationFunction.Threshold, z => if 0 ≤ z then 1 else 0
  | ActivationFunction.SymmetricThreshold, z => if 0 ≤ z then 1 else -1
  | ActivationFunction.Logistic, z => 1 / (1 + Real.exp (-z))
  | ActivationFunction.HyperbolicTangent, z => Real.tanh z
  | ActivationFunction.Linear, z => z
  | ActivationFunction.RectifiedLinear, z => if 0 < z then z else 0
  | ActivationFunction.ExponentialLinear, z => if 0 < z then z else Real.exp z - 1
  | ActivationFunction.ScaledExponentialLinear, z =>
      if 0 < z then 1.0507 * z else 1.0507 * (1.6733 * (Real.exp z - 1))
  | ActivationFunction.SoftPlus, z => Real.log (1 + Real.exp z)
  | ActivationFunction.SoftSign, z => z / (1 + |z|)
  | ActivationFunction.HardSigmoid, z =>
      if z < -2.5 then 0 else if 2.5 < z then 1 else 0.2 * z + 0.5

/-- Modelled from the spec: scalar first derivative for each of the 11
variants (spec section 4.1); the bodies of the
calculate_activations_derivatives members are not under src/. -/
noncomputable def activation_derivative : ActivationFunction → ℝ → ℝ
  | ActivationFunction.Threshold, _ => 0
  | ActivationFunction.SymmetricThreshold, _ => 0
  | ActivationFunction.Logistic, z =>
      activation ActivationFunction.Logistic z
        * (1 - activation ActivationFunction.Logistic z)
  | ActivationFunction.HyperbolicTangent, z => 1 - Real.tanh z ^ 2
  | ActivationFunction.Linear, _ => 1
  | ActivationFunction.RectifiedLinear, z => if 0 < z then 1 else 0
  | ActivationFunction.ExponentialLinear, z => if 0 < z then 1 else Real.exp z
  | ActivationFunction.ScaledExponentialLinear, z =>
      if 0 < z then 1.0507 else 1.0507 * 1.6733 * Real.exp z
  | ActivationFunction.SoftPlus, z => activation ActivationFunction.Logistic z
  | ActivationFunction.SoftSign, z => 1 / (1 + |z|) ^ 2
  | ActivationFunction.HardSigmoid, z => if -2.5 < z ∧ z < 2.5 then 0.2 else 0

/-- Modelled from the spec: elementwise application of the selected activation
over a rank-1 tensor (the Tensor-1 overload of calculate_activations declared
at src/opennn/long_short_term_memory_layer.h line 205). -/
noncomputable def calculate_activations (f : ActivationFunction) {k : ℕ}
    (v : Fin k → ℝ) : Fin k → ℝ :=
  fun i => activation f (v i)

/-- Modelled from the spec: elementwise application of the selected activation
over a rank-2 tensor (the Tensor-2 overload of calculate_activations declared
at src/opennn/long_short_term_memory_layer.h line 204). -/
noncomputable def calculate_activations_matrix (f : ActivationFunction) {r c : ℕ}
    (M : Fin r → Fin c → ℝ) : Fin r → Fin c → ℝ :=
  fun i j => activation f (M i j)

/-- Modelled from the spec: one-pass computation of activations and their
derivatives over a rank-1 tensor (calculate_activations_derivatives declared
at src/opennn/long_short_term_memory_layer.h line 213). -/
noncomputable def calculate_activations_derivatives (f : ActivationFunction) {k : ℕ}
    (v : Fin k → ℝ) : (Fin k → ℝ) × (Fin k → ℝ) :=
  (fun i => activation f (v i), fun i => activation_derivative f (v i))

/-- The per-gate parameters of the long short term memory layer: four weight
matrices of shape inputs by neurons, four recurrent-weight matrices of shape
neurons by neurons and four bias vectors of length neurons, matching the
protected members at src/opennn/long_short_term_memory_layer.h lines 321-334
and the shape invariants of spec section 3. -/
structure LSTMParams (m n : ℕ) where
  forget_weights : Fin m → Fin n → ℝ
  input_weights : Fin m → Fin n → ℝ
  state_weights : Fin m → Fin n → ℝ
  output_weights : Fin m → Fin n → ℝ
  forget_recurrent_weights : Fin n → Fin n → ℝ
  input_recurrent_weights : Fin n → Fin n → ℝ
  state_recurrent_weights : Fin n → Fin n → ℝ
  output_recurrent_weights : Fin n → Fin n → ℝ
  forget_biases : Fin n → ℝ
  input_biases : Fin n → ℝ
  state_biases : Fin n → ℝ
  output_biases : Fin n → ℝ

/-- The long short term memory layer state: the parameter tensors together
with the configuration members and the recurrent state vectors.  The default
field values (timesteps equal to 10, HyperbolicTangent cell activation,
HardSigmoid recurrent activation, display true) are the member initializers
at src/opennn/long_short_term_memory_layer.h lines 319, 338, 339 and 349. -/
structure LongShortTermMemoryLayer (m n : ℕ) where
  params : LSTMParams m n
  hidden_states : Fin n → ℝ
  cell_states : Fin n → ℝ
  timesteps : ℕ := 10
  activation_function : ActivationFunction := ActivationFunction.HyperbolicTangent
  recurrent_activation_function : ActivationFunction := ActivationFunction.HardSigmoid
  display : Bool := true

/-- A freshly constructed layer: all parameter tensors and state vectors are
zero and the configuration members keep their header initializers. -/
def new_lstm_layer (m n : ℕ) : LongShortTermMemoryLayer m n where
  params :=
    { forget_weights := fun _ _ => 0
      input_weights := fun _ _ => 0
      state_weights := fun _ _ => 0
      output_weights := fun _ _ => 0
      forget_recurrent_weights := fun _ _ => 0
      input_recurrent_weights := fun _ _ => 0
      state_recurrent_weights := fun _ _ => 0
      output_recurrent_weights := fun _ _ => 0
      forget_biases := fun _ => 0
      input_biases := fun _ => 0
      state_biases := fun _ => 0
      output_biases := fun _ => 0 }
  hidden_states := fun _ => 0
  cell_states := fun _ => 0

/-- Modelled from the spec: the forget-gate pre-activation
combination = input dot W plus previous hidden dot U plus b (spec section 4.2);
the body of calculate_forget_combinations declared at
src/opennn/long_short_term_memory_layer.h lines 178-182 is not under src/.
The previous hidden state is passed explicitly instead of being read from the
hidden_states member. -/
noncomputable def calculate_forget_combinations {m n : ℕ} (x : Fin m → ℝ)
    (W : Fin m → Fin n → ℝ) (U : Fin n → Fin n → ℝ) (b : Fin n → ℝ)
    (h : Fin n → ℝ) : Fin n → ℝ :=
  fun j => (∑ i, x i * W i j) + (∑ i, h i * U i j) + b j

/-- Modelled from the spec: the input-gate pre-activation combination
(spec section 4.2); body not under src/. -/
noncomputable def calculate_input_combinations {m n : ℕ} (x : Fin m → ℝ)
    (W : Fin m → Fin n → ℝ) (U : Fin n → Fin n → ℝ) (b : Fin n → ℝ)
    (h : Fin n → ℝ) : Fin n → ℝ :=
  fun j => (∑ i, x i * W i j) + (∑ i, h i * U i j) + b j

/-- Modelled from the spec: the state-gate pre-activation combination
(spec section 4.2); body not under src/. -/
noncomputable def calculate_state_combinations {m n : ℕ} (x : Fin m → ℝ)
    (W : Fin m → Fin n → ℝ) (U : Fin n → Fin n → ℝ) (b : Fin n → ℝ)
    (h : Fin n → ℝ) : Fin n → ℝ :=
  fun j => (∑ i, x i * W i j) + (∑ i, h i * U i j) + b j

/-- Modelled from the spec: the output-gate pre-activation combination
(spec section 4.2); body not under src/. -/
noncomputable def calculate_output_combinations {m n : ℕ} (x : Fin m → ℝ)
    (W : Fin m → Fin n → ℝ) (U : Fin n → Fin n → ℝ) (b : Fin n → ℝ)
    (h : Fin n → ℝ) : Fin n → ℝ :=
  fun j => (∑ i, x i * W i j) + (∑ i, h i * U i j) + b j

/-- One timestep of the forward cache: the four gate combinations, the four
gate activations, the new cell and hidden states, together with the input and
previous state they were computed from (spec section 3, ForwardCache). -/
structure StepCache (m n : ℕ) where
  input : Fin m → ℝ
  prev_hidden : Fin n → ℝ
  prev_cell : Fin n → ℝ
  forget_combinations : Fin n → ℝ
  input_combinations : Fin n → ℝ
  state_combinations : Fin n → ℝ
  output_combinations : Fin n → ℝ
  forget_activations : Fin n → ℝ
  input_activations : Fin n → ℝ
  state_activations : Fin n → ℝ
  output_activations : Fin n → ℝ
  cell_states : Fin n → ℝ
  hidden_states : Fin n → ℝ
deriving Inhabited

/-- Modelled from the spec: one step of the recurrent cell (spec section 4.3).
Computes the four gate combinations from the current input and the previous
hidden state, applies the recurrent activation to the forget, input and output
combinations and the cell activation to the state combination, then forms
new cell state = forget gate times previous cell state plus input gate times
state activation, and new hidden state = output gate times the cell activation
of the new cell state.  All intermediate values are cached. -/
noncomputable def lstm_step_cache {m n : ℕ} (L : LongShortTermMemoryLayer m n)
    (x : Fin m → ℝ) (h c : Fin n → ℝ) : StepCache m n :=
  let p := L.params
  let fc := calculate_forget_combinations x p.forget_weights
    p.forget_recurrent_weights p.forget_biases h
  let ic := calculate_input_combinations x p.input_weights
    p.input_recurrent_weights p.input_biases h
  let sc := calculate_state_combinations x p.state_weights
    p.state_recurrent_weights p.state_biases h
  let oc := calculate_output_combinations x p.output_weights
    p.output_recurrent_weights p.output_biases h
  let fa := fun j => activation L.recurrent_activation_function (fc j)
  let ia := fun j => activation L.recurrent_activation_function (ic j)
  let sa := fun j => activation L.activation_function (sc j)
  let oa := fun j => activation L.recurrent_activation_function (oc j)
  let cs := fun j => fa j * c j + ia j * sa j
  let hs := fun j => oa j * activation L.activation_function (cs j)
  ⟨x, h, c, fc, ic, sc, oc, fa, ia, sa, oa, cs, hs⟩

/-- Modelled from the spec: forward propagation of one sample sequence,
one timestep at a time (spec section 4.4); the bodies of the
forward_propagate members declared at src/opennn/long_short_term_memory_layer.h
lines 243-245 are not under src/.  The state carried into each step is the
hidden and cell state produced by the immediately preceding step. -/
noncomputable def forward_propagate {m n : ℕ} (L : LongShortTermMemoryLayer m n) :
    List (Fin m → ℝ) → (Fin n → ℝ) × (Fin n → ℝ) → List (StepCache m n)
  | [], _ => []
  | x :: xs, s =>
    let K := lstm_step_cache L x s.1 s.2
    K :: forward_propagate L xs (K.hidden_states, K.cell_states)

/-- Per-gate error signals of one timestep of back-propagation through time
(spec section 4.5). -/
structure GateErrors (n : ℕ) where
  forget : Fin n → ℝ
  input : Fin n → ℝ
  state : Fin n → ℝ
  output : Fin n → ℝ

/-- The data one timestep contributes to the parameter gradients: the input
and previous hidden state of that step and the four gate error signals
(spec section 4.5). -/
structure TimestepContribution (m n : ℕ) where
  input : Fin m → ℝ
  prev_hidden : Fin n → ℝ
  errors : GateErrors n

/-- Modelled from the spec: the back-propagation-through-time recursion of
spec section 4.5; the gradient-member bodies declared at
src/opennn/long_short_term_memory_layer.h lines 251-299 are not under src/.
The list argument carries the cached forward steps paired with the external
output deltas in reverse time order (t = timesteps down to 1).  The three
accumulator arguments are the hidden delta propagated backward from step t+1,
the cell delta of step t+1 and the forget activation of step t+1; all three
are zero at the t = timesteps boundary. -/
noncomputable def backward_pass {m n : ℕ} (L : LongShortTermMemoryLayer m n) :
    List (StepCache m n × (Fin n → ℝ)) → (Fin n → ℝ) → (Fin n → ℝ) →
    (Fin n → ℝ) → List (TimestepContribution m n)
  | [], _, _, _ => []
  | (K, delta) :: rest, dh_next, dc_next, f_next =>
    let dh := fun j => delta j + dh_next j
    let dc := fun j =>
      dh j * K.output_activations j
          * activation_derivative L.activation_function (K.cell_states j)
        + f_next j * dc_next j
    let ef := fun j => dc j * K.prev_cell j
      * activation_derivative L.recurrent_activation_function (K.forget_combinations j)
    let ei := fun j => dc j * K.state_activations j
      * activation_derivative L.recurrent_activation_function (K.input_combinations j)
    let es := fun j => dc j * K.input_activations j
      * activation_derivative L.activation_function (K.state_combinations j)
    let eo := fun j => dh j * activation L.activation_function (K.cell_states j)
      * activation_derivative L.recurrent_activation_function (K.output_combinations j)
    let dh_prev := fun i =>
      (∑ j, ef j * L.params.forget_recurrent_weights i j)
        + (∑ j, ei j * L.params.input_recurrent_weights i j)
        + (∑ j, es j * L.params.state_recurrent_weights i j)
        + (∑ j, eo j * L.params.output_recurrent_weights i j)
    ⟨K.input, K.prev_hidden, ⟨ef, ei, es, eo⟩⟩
      :: backward_pass L rest dh_prev dc K.forget_activations

/-- Modelled from the spec: the reverse-time contribution list of one batch
sample, obtained by running forward propagation, pairing the cached steps
with the output deltas, reversing to process t = timesteps down to 1 and
starting the backward recursion from zero accumulators (spec section 4.5). -/
noncomputable def sample_contributions {m n : ℕ} (L : LongShortTermMemoryLayer m n)
    (inputs : List (Fin m → ℝ)) (deltas : List (Fin n → ℝ))
    (s : (Fin n → ℝ) × (Fin n → ℝ)) : List (TimestepContribution m n) :=
  backward_pass L ((forward_propagate L inputs s).zip deltas).reverse
    (fun _ => 0) (fun _ => 0) (fun _ => 0)

/-- Modelled from the spec: accumulation of the forget-weight gradient
dW += input transposed times forget gate error, starting from a zero
accumulator and adding one outer product per processed (sample, timestep)
contribution (spec section 4.5; member declared at
src/opennn/long_short_term_memory_layer.h lines 253-255). -/
noncomputable def calculate_forget_weights_error_gradient {m n : ℕ}
    (contribs : List (TimestepContribution m n)) : Fin m → Fin n → ℝ :=
  contribs.foldl (fun acc c => acc + fun i j => c.input i * c.errors.forget j) 0

/-- Modelled from the spec: accumulation of the input-weight gradient
(member declared at src/opennn/long_short_term_memory_layer.h lines 257-259). -/
noncomputable def calculate_input_weights_error_gradient {m n : ℕ}
    (contribs : List (TimestepContribution m n)) : Fin m → Fin n → ℝ :=
  contribs.foldl (fun acc c => acc + fun i j => c.input i * c.errors.input j) 0

/-- Modelled from the spec: accumulation of the state-weight gradient
(member declared at src/opennn/long_short_term_memory_layer.h lines 261-263). -/
noncomputable def calculate_state_weights_error_gradient {m n : ℕ}
    (contribs : List (TimestepContribution m n)) : Fin m → Fin n → ℝ :=
  contribs.foldl (fun acc c => acc + fun i j => c.input i * c.errors.state j) 0

/-- Modelled from the spec: accumulation of the output-weight gradient
(member declared at src/opennn/long_short_term_memory_layer.h lines 265-267). -/
noncomputable def calculate_output_weights_error_gradient {m n : ℕ}
    (contribs : List (TimestepContribution m n)) : Fin m → Fin n → ℝ :=
  contribs.foldl (fun acc c => acc + fun i j => c.input i * c.errors.output j) 0

/-- Modelled from the spec: accumulation of the forget-recurrent-weight
gradient dU += previous hidden transposed times forget gate error
(member declared at src/opennn/long_short_term_memory_layer.h lines 269-271). -/
noncomputable def calculate_forget_recurrent_weights_error_gradient {m n : ℕ}
    (contribs : List (TimestepContribution m n)) : Fin n → Fin n → ℝ :=
  contribs.foldl (fun acc c => acc + fun i j => c.prev_hidden i * c.errors.forget j) 0

/-- Modelled from the spec: accumulation of the input-recurrent-weight
gradient (member declared at src/opennn/long_short_term_memory_layer.h
lines 273-275). -/
noncomputable def calculate_input_recurrent_weights_error_gradient {m n : ℕ}
    (contribs : List (TimestepContribution m n)) : Fin n → Fin n → ℝ :=
  contribs.foldl (fun acc c => acc + fun i j => c.prev_hidden i * c.errors.input j) 0

/-- Modelled from the spec: accumulation of the state-recurrent-weight
gradient (member declared at src/opennn/long_short_term_memory_layer.h
lines 277-279). -/
noncomputable def calculate_state_recurrent_weights_error_gradient {m n : ℕ}
    (contribs : List (TimestepContribution m n)) : Fin n → Fin n → ℝ :=
  contribs.foldl (fun acc c => acc + fun i j => c.prev_hidden i * c.errors.state j) 0

/-- Modelled from the spec: accumulation of the output-recurrent-weight
gradient (member declared at src/opennn/long_short_term_memory_layer.h
lines 281-283). -/
noncomputable def calculate_output_recurrent_weights_error_gradient {m n : ℕ}
    (contribs : List (TimestepContribution m n)) : Fin n → Fin n → ℝ :=
  contribs.foldl (fun acc c => acc + fun i j => c.prev_hidden i * c.errors.output j) 0

/-- Modelled from the spec: accumulation of the forget-bias gradient
db += gate error, summed over batch and timesteps (member declared at
src/opennn/long_short_term_memory_layer.h lines 285-287). -/
noncomputable def calculate_forget_biases_error_gradient {m n : ℕ}
    (contribs : List (TimestepContribution m n)) : Fin n → ℝ :=
  contribs.foldl (fun acc c => acc + fun j => c.errors.forget j) 0

/-- Modelled from the spec: accumulation of the input-bias gradient
(member declared at src/opennn/long_short_term_memory_layer.h lines 289-291). -/
noncomputable def calculate_input_biases_error_gradient {m n : ℕ}
    (contribs : List (TimestepContribution m n)) : Fin n → ℝ :=
  contribs.foldl (fun acc c => acc + fun j => c.errors.input j) 0

/-- Modelled from the spec: accumulation of the state-bias gradient
(member declared at src/opennn/long_short_term_memory_layer.h lines 293-295). -/
noncomputable def calculate_state_biases_error_gradient {m n : ℕ}
    (contribs : List (TimestepContribution m n)) : Fin n → ℝ :=
  contribs.foldl (fun acc c => acc + fun j => c.errors.state j) 0

/-- Modelled from the spec: accumulation of the output-bias gradient
(member declared at src/opennn/long_short_term_memory_layer.h lines 297-299). -/
noncomputable def calculate_output_biases_error_gradient {m n : ℕ}
    (contribs : List (TimestepContribution m n)) : Fin n → ℝ :=
  contribs.foldl (fun acc c => acc + fun j => c.errors.output j) 0

/-- Modelled from the spec: the full error-gradient computation of
spec section 4.5 (member declared at src/opennn/long_short_term_memory_layer.h
line 251).  The batch is a list of (input sequence, output-delta sequence)
pairs; each sample is processed in reverse time order and the twelve gradient
accumulators, reset to zero, mirror the parameter shapes exactly, so the
result is itself an LSTMParams value. -/
noncomputable def calculate_error_gradient {m n : ℕ} (L : LongShortTermMemoryLayer m n)
    (batch : List (List (Fin m → ℝ) × List (Fin n → ℝ)))
    (s : (Fin n → ℝ) × (Fin n → ℝ)) : LSTMParams m n :=
  let contribs := (batch.map (fun b => sample_contributions L b.1 b.2 s)).flatten
  { forget_weights := calculate_forget_weights_error_gradient contribs
    input_weights := calculate_input_weights_error_gradient contribs
    state_weights := calculate_state_weights_error_gradient contribs
    output_weights := calculate_output_weights_error_gradient contribs
    forget_recurrent_weights := calculate_forget_recurrent_weights_error_gradient contribs
    input_recurrent_weights := calculate_input_recurrent_weights_error_gradient contribs
    state_recurrent_weights := calculate_state_recurrent_weights_error_gradient contribs
    output_recurrent_weights := calculate_output_recurrent_weights_error_gradient contribs
    forget_biases := calculate_forget_biases_error_gradient contribs
    input_biases := calculate_input_biases_error_gradient contribs
    state_biases := calculate_state_biases_error_gradient contribs
    output_biases := calculate_output_biases_error_gradient contribs }

/-- The error taxonomy of spec section 7. -/
inductive LSTMError
  | DimensionMismatch
  | CacheMismatch
  | InvalidActivationName
deriving DecidableEq, Repr

/-- The forward-propagation cache handed to forward_propagate (the
ForwardPropagation argument declared at
src/opennn/long_short_term_memory_layer.h lines 243-245), reduced to the
batch/timestep configuration it was allocated for. -/
structure ForwardPropagation where
  batch_samples : ℕ
  layer_timesteps : ℕ

/-- Modelled from the spec: forward propagation with the error conditions of
spec sections 4.4 and 7; the forward_propagate bodies are not under src/.
The batch is a list of sample sequences of raw input rows.  The call fails
with DimensionMismatch when an input row's width differs from the layer's
inputs_number, or when the supplied cache was allocated for a different
batch/timestep configuration; otherwise it returns the full cache contents.
Errors are returned to the caller and no partial result is produced. -/
noncomputable def forward_propagate_checked {m n : ℕ}
    (L : LongShortTermMemoryLayer m n) (batch : List (List (List ℝ)))
    (fp : ForwardPropagation) : Except LSTMError (List (List (StepCache m n))) :=
  if batch.any (fun seq => seq.any (fun row => row.length != m)) then
    Except.error LSTMError.DimensionMismatch
  else if fp.batch_samples != batch.length || fp.layer_timesteps != L.timesteps then
    Except.error LSTMError.DimensionMismatch
  else
    Except.ok (batch.map (fun seq =>
      forward_propagate L (seq.map (fun row i => row.getD i 0))
        (L.hidden_states, L.cell_states)))

/-- The structured parameter document of spec section 6: one node for each
weight matrix, recurrent-weight matrix and bias vector, the timesteps value
and the two string-encoded activation-function names. -/
structure LSTMDocument (m n : ℕ) where
  forget_weights_element : Fin m → Fin n → ℝ
  input_weights_element : Fin m → Fin n → ℝ
  state_weights_element : Fin m → Fin n → ℝ
  output_weights_element : Fin m → Fin n → ℝ
  forget_recurrent_weights_element : Fin n → Fin n → ℝ
  input_recurrent_weights_element : Fin n → Fin n → ℝ
  state_recurrent_weights_element : Fin n → Fin n → ℝ
  output_recurrent_weights_element : Fin n → Fin n → ℝ
  forget_biases_element : Fin n → ℝ
  input_biases_element : Fin n → ℝ
  state_biases_element : Fin n → ℝ
  output_biases_element : Fin n → ℝ
  timesteps_element : ℕ
  activation_function_element : String
  recurrent_activation_function_element : String

/-- Modelled from the spec: the string encoding of the activation enum for
serialization (write_activation_function declared at
src/opennn/long_short_term_memory_layer.h line 89); body not under src/.
The valid names are the enum spellings listed in spec sections 3 and 6. -/
def write_activation_function : ActivationFunction → String
  | ActivationFunction.Threshold => "Threshold"
  | ActivationFunction.SymmetricThreshold => "SymmetricThreshold"
  | ActivationFunction.Logistic => "Logistic"
  | ActivationFunction.HyperbolicTangent => "HyperbolicTangent"
  | ActivationFunction.Linear => "Linear"
  | ActivationFunction.RectifiedLinear => "RectifiedLinear"
  | ActivationFunction.ExponentialLinear => "ExponentialLinear"
  | ActivationFunction.ScaledExponentialLinear => "ScaledExponentialLinear"
  | ActivationFunction.SoftPlus => "SoftPlus"
  | ActivationFunction.SoftSign => "SoftSign"
  | ActivationFunction.HardSigmoid => "HardSigmoid"

/-- Modelled from the spec: the string encoding of the recurrent activation
enum (write_recurrent_activation_function declared at
src/opennn/long_short_term_memory_layer.h line 90); the same name table. -/
def write_recurrent_activation_function : ActivationFunction → String :=
  write_activation_function

/-- Modelled from the spec: string-to-enum conversion used by
set_activation_function(const string&) declared at
src/opennn/long_short_term_memory_layer.h line 133; an unrecognized name is
reported as InvalidActivationName at configuration time (spec section 7). -/
def activation_function_from_string (s : String) : Except LSTMError ActivationFunction :=
  if s = "Threshold" then Except.ok ActivationFunction.Threshold
  else if s = "SymmetricThreshold" then Except.ok ActivationFunction.SymmetricThreshold
  else if s = "Logistic" then Except.ok ActivationFunction.Logistic
  else if s = "HyperbolicTangent" then Except.ok ActivationFunction.HyperbolicTangent
  else if s = "Linear" then Except.ok ActivationFunction.Linear
  else if s = "RectifiedLinear" then Except.ok ActivationFunction.RectifiedLinear
  else if s = "ExponentialLinear" then Except.ok ActivationFunction.ExponentialLinear
  else if s = "ScaledExponentialLinear" then Except.ok ActivationFunction.ScaledExponentialLinear
  else if s = "SoftPlus" then Except.ok ActivationFunction.SoftPlus
  else if s = "SoftSign" then Except.ok ActivationFunction.SoftSign
  else if s = "HardSigmoid" then Except.ok ActivationFunction.HardSigmoid
  else Except.error LSTMError.InvalidActivationName

/-- Modelled from the spec: serialization of the layer parameters into the
structured document (write_XML declared at
src/opennn/long_short_term_memory_layer.h line 315); body not under src/. -/
def write_XML {m n : ℕ} (L : LongShortTermMemoryLayer m n) : LSTMDocument m n :=
  { forget_weights_element := L.params.forget_weights
    input_weights_element := L.params.input_weights
    state_weights_element := L.params.state_weights
    output_weights_element := L.params.output_weights
    forget_recurrent_weights_element := L.params.forget_recurrent_weights
    input_recurrent_weights_element := L.params.input_recurrent_weights
    state_recurrent_weights_element := L.params.state_recurrent_weights
    output_recurrent_weights_element := L.params.output_recurrent_weights
    forget_biases_element := L.params.forget_biases
    input_biases_element := L.params.input_biases
    state_biases_element := L.params.state_biases
    output_biases_element := L.params.output_biases
    timesteps_element := L.timesteps
    activation_function_element := write_activation_function L.activation_function
    recurrent_activation_function_element :=
      write_recurrent_activation_function L.recurrent_activation_function }

/-- Modelled from the spec: deserialization of the structured document into a
layer (from_XML declared at src/opennn/long_short_term_memory_layer.h
line 313); body not under src/.  The state vectors are freshly zeroed; an
unrecognized activation name is surfaced as InvalidActivationName. -/
def from_XML {m n : ℕ} (doc : LSTMDocument m n) :
    Except LSTMError (LongShortTermMemoryLayer m n) :=
  match activation_function_from_string doc.activation_function_element,
      activation_function_from_string doc.recurrent_activation_function_element with
  | Except.ok a, Except.ok r =>
    Except.ok
      { params :=
          { forget_weights := doc.forget_weights_element
            input_weights := doc.input_weights_element
            state_weights := doc.state_weights_element
            output_weights := doc.output_weights_element
            forget_recurrent_weights := doc.forget_recurrent_weights_element
            input_recurrent_weights := doc.input_recurrent_weights_element
            state_recurrent_weights := doc.state_recurrent_weights_element
            output_recurrent_weights := doc.output_recurrent_weights_element
            forget_biases := doc.forget_biases_element
            input_biases := doc.input_biases_element
            state_biases := doc.state_biases_element
            output_biases := doc.output_biases_element }
        hidden_states := fun _ => 0
        cell_states := fun _ => 0
        timesteps := doc.timesteps_element
        activation_function := a
        recurrent_activation_function := r
        display := true }
  | Except.error e, _ => Except.error e
  | _, Except.error e => Except.error e

/-- The unscaling methods exercised by src/tests/unscaling_layer_test.cpp
(test_get_unscaling_method, lines 325-361): NoUnscaling, MinimumMaximum,
MeanStandardDeviation, Logarithmic. -/
inductive UnscalingMethod
  | NoUnscaling
  | MinimumMaximum
  | MeanStandardDeviation
  | Logarithmic
deriving DecidableEq, Repr

/-- Per-neuron descriptives (minimum, maximum, mean, standard deviation).
The default values minimum = -1, maximum = 1, mean = 0,
standard deviation = 1 are the ones asserted for a default-constructed
Descriptives by src/tests/unscaling_layer_test.cpp lines 120-130.  Exact
rationals stand in for the float type of the code. -/
structure Descriptives where
  minimum : ℚ := -1
  maximum : ℚ := 1
  mean : ℚ := 0
  standard_deviation : ℚ := 1
deriving DecidableEq, Repr

/-- The unscaling layer: one Descriptives record per neuron and the selected
unscaling method. -/
structure UnscalingLayer where
  descriptives : List Descriptives
  unscaling_method : UnscalingMethod
deriving DecidableEq, Repr

/-- Modelled from the spec: UnscalingLayer::set(n) builds n neurons with
default descriptives, as asserted by src/tests/unscaling_layer_test.cpp
lines 395-406. -/
def unscaling_layer_set (neurons_number : ℕ) (method : UnscalingMethod) :
    UnscalingLayer :=
  { descriptives := List.replicate neurons_number {}
    unscaling_method := method }

/-- Renders a numeric literal the way the expression writer does: negative
values are parenthesized, as in the expected strings of
src/tests/unscaling_layer_test.cpp lines 874-902. -/
def write_number (q : ℚ) : String :=
  if q < 0 then "(" ++ toString q ++ ")" else toString q

/-- Modelled from the spec: the symbolic-expression export of the unscaling
layer (spec section 6), whose implementation is not under src/.  One line per
neuron, with the fixed textual template of the selected method and the
neuron's descriptives substituted; the expected strings are asserted by
UnscalingLayerTest::test_write_expression at
src/tests/unscaling_layer_test.cpp lines 851-903. -/
def write_expression (L : UnscalingLayer)
    (inputs_names outputs_names : List String) : String :=
  String.join ((List.range L.descriptives.length).map (fun i =>
    let d := L.descriptives.getD i {}
    let x := inputs_names.getD i ""
    let y := outputs_names.getD i ""
    match L.unscaling_method with
    | UnscalingMethod.NoUnscaling => y ++ " = " ++ x ++ ";\n"
    | UnscalingMethod.MinimumMaximum =>
        y ++ " = 0.5*(" ++ x ++ "+1)*(" ++ write_number d.maximum ++ "-"
          ++ write_number d.minimum ++ ")+" ++ write_number d.minimum ++ ";\n"
    | UnscalingMethod.MeanStandardDeviation =>
        y ++ " = (" ++ toString d.mean ++ ")+("
          ++ toString d.standard_deviation ++ ")*" ++ x ++ ";\n"
    | UnscalingMethod.Logarithmic =>
        y ++ " = 0.5*exp(" ++ x ++ "-1)*(" ++ write_number d.maximum ++ "-"
          ++ write_number d.minimum ++ ")+" ++ write_number d.minimum ++ ";\n"))

/-- One perceptron layer of the multilayer perceptron, reduced to the two
size accessors used by the arrange methods of
src/opennn/multilayer_perceptron.h. -/
structure PerceptronLayer where
  inputs_number : ℕ
  perceptrons_number : ℕ
deriving DecidableEq, Repr

/-- The multilayer perceptron: a vector of perceptron layers
(src/opennn/multilayer_perceptron.h line 484). -/
structure MultilayerPerceptron where
  layers : List PerceptronLayer
deriving DecidableEq, Repr

/-- get_layers_number from src/opennn/multilayer_perceptron.h lines 201-204. -/
def get_layers_number (mlp : MultilayerPerceptron) : ℕ :=
  mlp.layers.length

/-- arrange_layers_perceptrons_numbers from
src/opennn/multilayer_perceptron.h lines 225-237. -/
def arrange_layers_perceptrons_numbers (mlp : MultilayerPerceptron) : List ℕ :=
  mlp.layers.map PerceptronLayer.perceptrons_number

/-- The modulus of the unsigned 64-bit size_t arithmetic used by
arrange_complexity. -/
def size_t_modulus : ℕ := 2 ^ 64

/-- Subtraction of 1 in size_t arithmetic: (k - 1) modulo 2 to the 64. -/
def size_t_sub_one (k : ℕ) : ℕ :=
  (k + size_t_modulus - 1) % size_t_modulus

/-- The length that arrange_complexity requests for its result vector: the
body at src/opennn/multilayer_perceptron.h lines 161-180 declares an empty
vector and calls resize(layers_number - 1) in size_t arithmetic whenever
layers_number differs from 1. -/
def arrange_complexity_resize_length (mlp : MultilayerPerceptron) : ℕ :=
  if get_layers_number mlp ≠ 1 then size_t_sub_one (get_layers_number mlp) else 0

/-- arrange_complexity from src/opennn/multilayer_perceptron.h lines 161-180:
when layers_number differs from 1 the result is resized to
layers_number - 1 (computed in size_t arithmetic) and entry i is read from
arrange_layers_perceptrons_numbers at index i; an out-of-bounds read of that
vector is modelled as none. -/
def arrange_complexity (mlp : MultilayerPerceptron) : Option (List ℕ) :=
  if get_layers_number mlp ≠ 1 then
    (List.range (size_t_sub_one (get_layers_number mlp))).mapM
      (fun i => (arrange_layers_perceptrons_numbers mlp)[i]?)
  else some []

/-- The mutating operations of the long short term memory layer that keep the
layer's shape, from the declarations at
src/opennn/long_short_term_memory_layer.h lines 112-174 and 218: the twelve
parameter setters, the constant parameter fill, the state initializers, the
display setter, a forward-propagation run (which advances the recurrent
state), and the three configuration setters. -/
inductive LSTMOp (m n : ℕ)
  | set_forget_biases (v : Fin n → ℝ)
  | set_input_biases (v : Fin n → ℝ)
  | set_state_biases (v : Fin n → ℝ)
  | set_output_biases (v : Fin n → ℝ)
  | set_forget_weights (w : Fin m → Fin n → ℝ)
  | set_input_weights (w : Fin m → Fin n → ℝ)
  | set_state_weights (w : Fin m → Fin n → ℝ)
  | set_output_weights (w : Fin m → Fin n → ℝ)
  | set_forget_recurrent_weights (w : Fin n → Fin n → ℝ)
  | set_input_recurrent_weights (w : Fin n → Fin n → ℝ)
  | set_state_recurrent_weights (w : Fin n → Fin n → ℝ)
  | set_output_recurrent_weights (w : Fin n → Fin n → ℝ)
  | set_parameters_constant (c : ℝ)
  | set_hidden_states_constant (c : ℝ)
  | set_cell_states_constant (c : ℝ)
  | set_display (b : Bool)
  | run_forward_propagate (inputs : List (Fin m → ℝ))
  | set_timesteps (k : ℕ)
  | set_activation_function (a : ActivationFunction)
  | set_recurrent_activation_function (a : ActivationFunction)

/-- Modelled from the spec: the effect of each shape-preserving operation on
the layer state; the setter bodies are not under src/.  Each setter replaces
exactly the member it names; run_forward_propagate advances the recurrent
state vectors to the last cached step. -/
noncomputable def apply_operation {m n : ℕ} :
    LSTMOp m n → LongShortTermMemoryLayer m n → LongShortTermMemoryLayer m n
  | LSTMOp.set_forget_biases v, L =>
      { L with params := { L.params with forget_biases := v } }
  | LSTMOp.set_input_biases v, L =>
      { L with params := { L.params with input_biases := v } }
  | LSTMOp.set_state_biases v, L =>
      { L with params := { L.params with state_biases := v } }
  | LSTMOp.set_output_biases v, L =>
      { L with params := { L.params with output_biases := v } }
  | LSTMOp.set_forget_weights w, L =>
      { L with params := { L.params with forget_weights := w } }
  | LSTMOp.set_input_weights w, L =>
      { L with params := { L.params with input_weights := w } }
  | LSTMOp.set_state_weights w, L =>
      { L with params := { L.params with state_weights := w } }
  | LSTMOp.set_output_weights w, L =>
      { L with params := { L.params with output_weights := w } }
  | LSTMOp.set_forget_recurrent_weights w, L =>
      { L with params := { L.params with forget_recurrent_weights := w } }
  | LSTMOp.set_input_recurrent_weights w, L =>
      { L with params := { L.params with input_recurrent_weights := w } }
  | LSTMOp.set_state_recurrent_weights w, L =>
      { L with params := { L.params with state_recurrent_weights := w } }
  | LSTMOp.set_output_recurrent_weights w, L =>
      { L with params := { L.params with output_recurrent_weights := w } }
  | LSTMOp.set_parameters_constant c, L =>
      { L with params :=
          { forget_weights := fun _ _ => c
            input_weights := fun _ _ => c
            state_weights := fun _ _ => c
            output_weights := fun _ _ => c
            forget_recurrent_weights := fun _ _ => c
            input_recurrent_weights := fun _ _ => c
            state_recurrent_weights := fun _ _ => c
            output_recurrent_weights := fun _ _ => c
            forget_biases := fun _ => c
            input_biases := fun _ => c
            state_biases := fun _ => c
            output_biases := fun _ => c } }
  | LSTMOp.set_hidden_states_constant c, L => { L with hidden_states := fun _ => c }
  | LSTMOp.set_cell_states_constant c, L => { L with cell_states := fun _ => c }
  | LSTMOp.set_display b, L => { L with display := b }
  | LSTMOp.run_forward_propagate xs, L =>
      match (forward_propagate L xs (L.hidden_states, L.cell_states)).getLast? with
      | some K =>
        { L with hidden_states := K.hidden_states, cell_states := K.cell_states }
      | none => L
  | LSTMOp.set_timesteps k, L => { L with timesteps := k }
  | LSTMOp.set_activation_function a, L => { L with activation_function := a }
  | LSTMOp.set_recurrent_activation_function a, L =>
      { L with recurrent_activation_function := a }

/-- True exactly for the three operations that are allowed to change the
timesteps or activation-function configuration. -/
def op_touches_configuration {m n : ℕ} : LSTMOp m n → Bool
  | LSTMOp.set_timesteps _ => true
  | LSTMOp.set_activation_function _ => true
  | LSTMOp.set_recurrent_activation_function _ => true
  | _ => false

/-- The concrete layer of the spec section 8 scenario: one input, one neuron,
one timestep, Linear cell activation, Logistic recurrent activation, all
weights 1, all recurrent weights 0, all biases 0, zero initial state. -/
noncomputable def scenario_layer : LongShortTermMemoryLayer 1 1 :=
  { params :=
      { forget_weights := fun _ _ => 1
        input_weights := fun _ _ => 1
        state_weights := fun _ _ => 1
        output_weights := fun _ _ => 1
        forget_recurrent_weights := fun _ _ => 0
        input_recurrent_weights := fun _ _ => 0
        state_recurrent_weights := fun _ _ => 0
        output_recurrent_weights := fun _ _ => 0
        forget_biases := fun _ => 0
        input_biases := fun _ => 0
        state_biases := fun _ => 0
        output_biases := fun _ => 0 }
    hidden_states := fun _ => 0
    cell_states := fun _ => 0
    timesteps := 1
    activation_function := ActivationFunction.Linear
    recurrent_activation_function := ActivationFunction.Logistic }

/-- A small concrete layer reused by concrete instantiations: one input, one
neuron, zero parameters, header-default configuration. -/
noncomputable def demo_layer : LongShortTermMemoryLayer 1 1 :=
  new_lstm_layer 1 1

/-- A small concrete parameter document: one input, one neuron, constant
numeric content, Threshold activation names. -/
def demo_document : LSTMDocument 1 1 :=
  { forget_weights_element := fun _ _ => 1
    input_weights_element := fun _ _ => 2
    state_weights_element := fun _ _ => 3
    output_weights_element := fun _ _ => 4
    forget_recurrent_weights_element := fun _ _ => 5
    input_recurrent_weights_element := fun _ _ => 6
    state_recurrent_weights_element := fun _ _ => 7
    output_recurrent_weights_element := fun _ _ => 8
    forget_biases_element := fun _ => 9
    input_biases_element := fun _ => 10
    state_biases_element := fun _ => 11
    output_biases_element := fun _ => 12
    timesteps_element := 5
    activation_function_element := "Threshold"
    recurrent_activation_function_element := "Threshold" }

/-- The layer that demo_document deserializes to. -/
def demo_document_layer : LongShortTermMemoryLayer 1 1 :=
  { params :=
      { forget_weights := fun _ _ => 1
        input_weights := fun _ _ => 2
        state_weights := fun _ _ => 3
        output_weights := fun _ _ => 4
        forget_recurrent_weights := fun _ _ => 5
        input_recurrent_weights := fun _ _ => 6
        state_recurrent_weights := fun _ _ => 7
        output_recurrent_weights := fun _ _ => 8
        forget_biases := fun _ => 9
        input_biases := fun _ => 10
        state_biases := fun _ => 11
        output_biases := fun _ => 12 }
    hidden_states := fun _ => 0
    cell_states := fun _ => 0
    timesteps := 5
    activation_function := ActivationFunction.Threshold
    recurrent_activation_function := ActivationFunction.Threshold
    display := true }

/-- A multilayer perceptron with a single layer. -/
def mlp_one : MultilayerPerceptron :=
  { layers := [{ inputs_number := 1, perceptrons_number := 2 }] }

/-- A multilayer perceptron with three layers of sizes 3, 4, 5. -/
def mlp_three : MultilayerPerceptron :=
  { layers := [{ inputs_number := 2, perceptrons_number := 3 },
               { inputs_number := 3, perceptrons_number := 4 },
               { inputs_number := 4, perceptrons_number := 5 }] }

/-- The empty multilayer perceptron. -/
def mlp_zero : MultilayerPerceptron :=
  { layers := [] }

/-- The cached step produced by forward propagation of the spec section 8
scenario on the single input [2.0]. -/
noncomputable def scenario_step : StepCache 1 1 :=
  (forward_propagate scenario_layer [fun _ => 2]
    (scenario_layer.hidden_states, scenario_layer.cell_states)).getD 0 default

/-
  Theorems.
-/

/-- Folding additive contributions from a starting accumulator is the
accumulator plus the list sum of the contributions. -/
theorem foldl_add_sum {α : Type} {M : Type} [AddCommMonoid M] (g : α → M) :
    ∀ (l : List α) (z : M), l.foldl (fun acc c => acc + g c) z = z + (l.map g).sum := by
  intro l
  induction l with
  | nil => intro z; simp
  | cons a l ih => intro z; simp [ih, add_assoc]

/-- A list sum of functions, applied pointwise. -/
theorem list_sum_pi_apply {ι : Type} {M : Type} [AddCommMonoid M] :
    ∀ (l : List (ι → M)) (x : ι), l.sum x = (l.map (fun f => f x)).sum := by
  intro l
  induction l with
  | nil => intro x; simp
  | cons f l ih => intro x; simp [ih]

/-- Summing mapped contributions over a flattened list of lists equals the sum
of the per-list sums. -/
theorem sum_map_flatten {α : Type} {M : Type} [AddCommMonoid M]
    (g : α → M) (LL : List (List α)) :
    ((LL.flatten).map g).sum = (LL.map (fun l => (l.map g).sum)).sum := by
  rw [List.map_flatten, List.sum_flatten, List.map_map]
  rfl

/-- Pointwise value of a rank-2 additive fold from a zero accumulator. -/
theorem fold_outer_apply {α ι κ : Type} (contribs : List α)
    (g : α → ι → κ → ℝ) (i : ι) (j : κ) :
    (contribs.foldl (fun acc c => acc + g c) 0) i j
      = (contribs.map (fun c => g c i j)).sum := by
  rw [foldl_add_sum g contribs 0, zero_add]
  rw [list_sum_pi_apply, List.map_map, list_sum_pi_apply, List.map_map]
  rfl

/-- Pointwise value of a rank-1 additive fold from a zero accumulator. -/
theorem fold_bias_apply {α ι : Type} (contribs : List α)
    (g : α → ι → ℝ) (j : ι) :
    (contribs.foldl (fun acc c => acc + g c) 0) j
      = (contribs.map (fun c => g c j)).sum := by
  rw [foldl_add_sum g contribs 0, zero_add]
  rw [list_sum_pi_apply, List.map_map]
  rfl

/-- Claim C4: for every activation kind among the 11 enum variants and every
scalar input z, applied elementwise over vectors and matrices with no hidden
state, calculate_activations and calculate_activations_derivatives return the
activation and derivative given by the exact per-variant formulas of spec
section 4.1; in particular Logistic returns 1/(1+exp(-z)) with derivative
a(1-a), ExponentialLinear returns z if z is positive else exp(z)-1 with
derivative 1 if z is positive else exp(z), and HardSigmoid returns the clamp
of 0.2z+0.5 to the unit interval with derivative 0.2 inside the linear
region and 0 outside. -/
theorem claim_C4 :
    (∀ z : ℝ,
      activation ActivationFunction.Threshold z = (if 0 ≤ z then 1 else 0)
      ∧ activation_derivative ActivationFunction.Threshold z = 0
      ∧ activation ActivationFunction.SymmetricThreshold z = (if 0 ≤ z then 1 else -1)
      ∧ activation_derivative ActivationFunction.SymmetricThreshold z = 0
      ∧ activation ActivationFunction.Logistic z = 1 / (1 + Real.exp (-z))
      ∧ activation_derivative ActivationFunction.Logistic z
          = activation ActivationFunction.Logistic z
              * (1 - activation ActivationFunction.Logistic z)
      ∧ activation ActivationFunction.HyperbolicTangent z = Real.tanh z
      ∧ activation_derivative ActivationFunction.HyperbolicTangent z
          = 1 - Real.tanh z ^ 2
      ∧ activation ActivationFunction.Linear z = z
      ∧ activation_derivative ActivationFunction.Linear z = 1
      ∧ activation ActivationFunction.RectifiedLinear z = max 0 z
      ∧ activation_derivative ActivationFunction.RectifiedLinear z
          = (if 0 < z then 1 else 0)
      ∧ activation ActivationFunction.ExponentialLinear z
          = (if 0 < z then z else Real.exp z - 1)
      ∧ activation_derivative ActivationFunction.ExponentialLinear z
          = (if 0 < z then 1 else Real.exp z)
      ∧ activation ActivationFunction.ScaledExponentialLinear z
          = (if 0 < z then 1.0507 * z else 1.0507 * (1.6733 * (Real.exp z - 1)))
      ∧ activation_derivative ActivationFunction.ScaledExponentialLinear z
          = (if 0 < z then 1.0507 else 1.0507 * 1.6733 * Real.exp z)
      ∧ activation ActivationFunction.SoftPlus z = Real.log (1 + Real.exp z)
      ∧ activation_derivative ActivationFunction.SoftPlus z
          = activation ActivationFunction.Logistic z
      ∧ activation ActivationFunction.SoftSign z = z / (1 + |z|)
      ∧ activation_derivative ActivationFunction.SoftSign z = 1 / (1 + |z|) ^ 2
      ∧ activation ActivationFunction.HardSigmoid z = min 1 (max 0 (0.2 * z + 0.5))
      ∧ activation_derivative ActivationFunction.HardSigmoid z
          = (if -2.5 < z ∧ z < 2.5 then 0.2 else 0))
    ∧ (∀ (k : ℕ) (f : ActivationFunction) (v : Fin k → ℝ) (i : Fin k),
        calculate_activations f v i = activation f (v i)
        ∧ (calculate_activations_derivatives f v).1 i = activation f (v i)
        ∧ (calculate_activations_derivatives f v).2 i = activation_derivative f (v i))
    ∧ (∀ (r c : ℕ) (f : ActivationFunction) (M : Fin r → Fin c → ℝ) (i : Fin r)
        (j : Fin c), calculate_activations_matrix f M i j = activation f (M i j)) := by
  refine ⟨fun z => ?_, fun k f v i => ⟨rfl, rfl, rfl⟩, fun r c f M i j => rfl⟩
  refine ⟨rfl, rfl, rfl, rfl, rfl, rfl, rfl, rfl, rfl, rfl, ?_, rfl, rfl, rfl, rfl,
    rfl, rfl, rfl, rfl, rfl, ?_, rfl⟩
  · show activation ActivationFunction.RectifiedLinear z = max 0 z
    simp only [activation]
    rcases lt_or_le 0 z with h | h
    · rw [if_pos h, max_eq_right h.le]
    · rw [if_neg (not_lt.2 h), max_eq_left h]
  · show activation ActivationFunction.HardSigmoid z = min 1 (max 0 (0.2 * z + 0.5))
    simp only [activation]
    split_ifs with h1 h2
    · rw [max_eq_left (by nlinarith), min_eq_right (by norm_num)]
    · rw [max_eq_right (by nlinarith), min_eq_left (by nlinarith)]
    · push_neg at h1 h2
      rw [max_eq_right (by nlinarith), min_eq_right (by nlinarith)]

/-- Claim C8: for a single-neuron unscaling layer with default descriptives
(minimum -1, maximum 1), write_expression with input name x and output name y
returns exactly the fixed template per method: the linear template under
NoUnscaling and the min-max template with the minimum and maximum substituted
under MinimumMaximum, matching UnscalingLayerTest::test_write_expression. -/
theorem claim_C8 :
    write_expression (unscaling_layer_set 1 UnscalingMethod.NoUnscaling)
        ["x"] ["y"] = "y = x;\n"
    ∧ write_expression (unscaling_layer_set 1 UnscalingMethod.MinimumMaximum)
        ["x"] ["y"] = "y = 0.5*(x+1)*(1-(-1))+(-1);\n" := by
  constructor
  · rfl
  · rfl

/-- Reading the first d positions of a list through mapM succeeds and yields
the d-element prefix whenever d is within bounds. -/
theorem mapM_range_take {α : Type} [Inhabited α] (l : List α) :
    ∀ d : ℕ, d ≤ l.length →
      (List.range d).mapM (fun i => l[i]?) = some (l.take d) := by
  intro d
  induction d with
  | zero => intro h; rfl
  | succ k ih =>
    intro h
    have hk : k ≤ l.length := Nat.le_of_succ_le h
    have hlt : k < l.length := h
    have hget : l[k]? = some (l.get ⟨k, hlt⟩) := by
      rw [List.getElem?_eq_getElem hlt]
      rfl
    rw [List.range_succ, List.mapM_append, ih hk]
    simp only [List.mapM_cons, List.mapM_nil, hget]
    rw [List.take_succ, List.getElem?_eq_getElem hlt]
    rfl

/-- The size_t modulus as a numeral. -/
theorem size_t_modulus_eq : size_t_modulus = 18446744073709551616 := by
  norm_num [size_t_modulus]

/-- Claim C9: arrange_complexity returns the empty vector when the network has
exactly one layer, and otherwise returns the sizes of all layers except the
last with requested length layers_number - 1 computed in size_t arithmetic;
for zero layers the requested length underflows to 2 to the 64 minus 1 and
the operation is not safely total (the fill loop reads out of bounds). -/
theorem claim_C9 :
    (∀ mlp : MultilayerPerceptron, get_layers_number mlp = 1 →
      arrange_complexity mlp = some [])
    ∧ (∀ mlp : MultilayerPerceptron, 2 ≤ get_layers_number mlp →
        get_layers_number mlp < size_t_modulus →
        arrange_complexity_resize_length mlp = get_layers_number mlp - 1
        ∧ arrange_complexity mlp
            = some ((arrange_layers_perceptrons_numbers mlp).take
                (get_layers_number mlp - 1)))
    ∧ arrange_complexity_resize_length mlp_zero = size_t_modulus - 1
    ∧ arrange_complexity mlp_zero = none := by
  have hmod : size_t_modulus = 18446744073709551616 := size_t_modulus_eq
  refine ⟨?_, ?_, ?_, ?_⟩
  · intro mlp h1
    rw [arrange_complexity, if_neg (by simp [h1])]
  · intro mlp h2 hlt
    have hne : get_layers_number mlp ≠ 1 := by omega
    have hsub : size_t_sub_one (get_layers_number mlp) = get_layers_number mlp - 1 := by
      rw [size_t_sub_one, hmod]
      rw [hmod] at hlt
      omega
    constructor
    · rw [arrange_complexity_resize_length, if_pos hne, hsub]
    · rw [arrange_complexity, if_pos hne, hsub]
      have hlen : get_layers_number mlp - 1
          ≤ (arrange_layers_perceptrons_numbers mlp).length := by
        simp [arrange_layers_perceptrons_numbers, get_layers_number]
      exact mapM_range_take _ _ hlen
  · rw [arrange_complexity_resize_length, if_pos (by simp [get_layers_number, mlp_zero])]
    rw [size_t_sub_one, hmod]
    simp [get_layers_number, mlp_zero]
  · rw [arrange_complexity, if_pos (by simp [get_layers_number, mlp_zero])]
    have hN : size_t_sub_one (get_layers_number mlp_zero) = 18446744073709551615 := by
      rw [size_t_sub_one, hmod]
      simp [get_layers_number, mlp_zero]
    rw [hN]
    have hsplit : (18446744073709551615 : ℕ) = 18446744073709551614 + 1 := by norm_num
    rw [hsplit, List.range_succ_eq_map]
    have hnone : (arrange_layers_perceptrons_numbers mlp_zero)[0]? = none := rfl
    simp only [List.mapM_cons, hnone]
    rfl

/-- Witness for claim C9: the one-layer network yields the empty vector and a
three-layer network with sizes 3, 4, 5 yields the first two sizes. -/
theorem claim_C9_witness :
    get_layers_number mlp_one = 1
    ∧ arrange_complexity mlp_one = some []
    ∧ 2 ≤ get_layers_number mlp_three
    ∧ get_layers_number mlp_three < size_t_modulus
    ∧ arrange_complexity mlp_three = some [3, 4] := by
  have h1 : get_layers_number mlp_one = 1 := rfl
  have h2 : 2 ≤ get_layers_number mlp_three := by
    simp [get_layers_number, mlp_three]
  have h3 : get_layers_number mlp_three < size_t_modulus := by
    rw [size_t_modulus_eq]
    simp [get_layers_number, mlp_three]
  refine ⟨h1, claim_C9.1 mlp_one h1, h2, h3, ?_⟩
  have h4 := (claim_C9.2.1 mlp_three h2 h3).2
  rw [h4]
  rfl

/-- Claim C10: a default-constructed layer has timesteps 10, cell activation
HyperbolicTangent and recurrent activation HardSigmoid (the member
initializers at src/opennn/long_short_term_memory_layer.h lines 319 and
338-339), and every operation other than set_timesteps,
set_activation_function and set_recurrent_activation_function leaves these
three values unchanged. -/
theorem claim_C10 :
    (∀ m n : ℕ, (new_lstm_layer m n).timesteps = 10
      ∧ (new_lstm_layer m n).activation_function
          = ActivationFunction.HyperbolicTangent
      ∧ (new_lstm_layer m n).recurrent_activation_function
          = ActivationFunction.HardSigmoid)
    ∧ (∀ (m n : ℕ) (L : LongShortTermMemoryLayer m n) (op : LSTMOp m n),
        op_touches_configuration op = false →
          (apply_operation op L).timesteps = L.timesteps
          ∧ (apply_operation op L).activation_function = L.activation_function
          ∧ (apply_operation op L).recurrent_activation_function
              = L.recurrent_activation_function) := by
  refine ⟨fun m n => ⟨rfl, rfl, rfl⟩, ?_⟩
  intro m n L op hcfg
  cases op with
  | run_forward_propagate xs =>
    simp only [apply_operation]
    cases (forward_propagate L xs (L.hidden_states, L.cell_states)).getLast? with
    | none => exact ⟨rfl, rfl, rfl⟩
    | some K => exact ⟨rfl, rfl, rfl⟩
  | set_timesteps k => simp [op_touches_configuration] at hcfg
  | set_activation_function a => simp [op_touches_configuration] at hcfg
  | set_recurrent_activation_function a => simp [op_touches_configuration] at hcfg
  | set_forget_biases v => exact ⟨rfl, rfl, rfl⟩
  | set_input_biases v => exact ⟨rfl, rfl, rfl⟩
  | set_state_biases v => exact ⟨rfl, rfl, rfl⟩
  | set_output_biases v => exact ⟨rfl, rfl, rfl⟩
  | set_forget_weights w => exact ⟨rfl, rfl, rfl⟩
  | set_input_weights w => exact ⟨rfl, rfl, rfl⟩
  | set_state_weights w => exact ⟨rfl, rfl, rfl⟩
  | set_output_weights w => exact ⟨rfl, rfl, rfl⟩
  | set_forget_recurrent_weights w => exact ⟨rfl, rfl, rfl⟩
  | set_input_recurrent_weights w => exact ⟨rfl, rfl, rfl⟩
  | set_state_recurrent_weights w => exact ⟨rfl, rfl, rfl⟩
  | set_output_recurrent_weights w => exact ⟨rfl, rfl, rfl⟩
  | set_parameters_constant c => exact ⟨rfl, rfl, rfl⟩
  | set_hidden_states_constant c => exact ⟨rfl, rfl, rfl⟩
  | set_cell_states_constant c => exact ⟨rfl, rfl, rfl⟩
  | set_display b => exact ⟨rfl, rfl, rfl⟩

/-- Witness for claim C10: setting the display flag on the demo layer keeps
timesteps 10 and both default activation selections. -/
theorem claim_C10_witness :
    op_touches_configuration (LSTMOp.set_display (m := 1) (n := 1) false) = false
    ∧ (apply_operation (LSTMOp.set_display false) demo_layer).timesteps
        = demo_layer.timesteps
    ∧ (apply_operation (LSTMOp.set_display false) demo_layer).activation_function
        = demo_layer.activation_function
    ∧ (apply_operation (LSTMOp.set_display false) demo_layer).recurrent_activation_function
        = demo_layer.recurrent_activation_function := by
  have h := claim_C10.2 1 1 demo_layer (LSTMOp.set_display false) rfl
  exact ⟨rfl, h.1, h.2.1, h.2.2⟩

/-- Claim C6: forward propagation on a batch containing a row whose width
differs from the layer's inputs_number fails with DimensionMismatch, the same
failure occurs when the supplied cache was allocated for a different
batch/timestep configuration, and an erroneous call never yields a partial
ok result: the error is the value surfaced to the caller. -/
theorem claim_C6 :
    (∀ (m n : ℕ) (L : LongShortTermMemoryLayer m n) (batch : List (List (List ℝ)))
        (fp : ForwardPropagation),
        (∃ seq ∈ batch, ∃ row ∈ seq, row.length ≠ m) →
          forward_propagate_checked L batch fp
            = Except.error LSTMError.DimensionMismatch)
    ∧ (∀ (m n : ℕ) (L : LongShortTermMemoryLayer m n) (batch : List (List (List ℝ)))
        (fp : ForwardPropagation),
        (fp.batch_samples ≠ batch.length ∨ fp.layer_timesteps ≠ L.timesteps) →
          forward_propagate_checked L batch fp
            = Except.error LSTMError.DimensionMismatch)
    ∧ (∀ (m n : ℕ) (L : LongShortTermMemoryLayer m n) (batch : List (List (List ℝ)))
        (fp : ForwardPropagation) (e : LSTMError),
        forward_propagate_checked L batch fp = Except.error e →
          ∀ out, forward_propagate_checked L batch fp ≠ Except.ok out) := by
  refine ⟨?_, ?_, ?_⟩
  · intro m n L batch fp hrow
    have hcond : (batch.any fun seq => seq.any fun row => row.length != m) = true := by
      simp only [List.any_eq_true, bne_iff_ne]
      obtain ⟨seq, hseq, row, hrowmem, hlen⟩ := hrow
      exact ⟨seq, hseq, row, hrowmem, hlen⟩
    rw [forward_propagate_checked, if_pos hcond]
  · intro m n L batch fp hmis
    rw [forward_propagate_checked]
    by_cases hw : (batch.any fun seq => seq.any fun row => row.length != m) = true
    · rw [if_pos hw]
    · rw [if_neg hw, if_pos]
      simp only [Bool.or_eq_true, bne_iff_ne]
      exact hmis
  · intro m n L batch fp e herr out
    rw [herr]
    intro hcontra
    cases hcontra

/-- Witness for claim C6: a one-input layer rejects a batch whose only row has
width 2, and rejects a cache allocated for one sample when the batch is
empty. -/
theorem claim_C6_witness :
    (∃ seq ∈ ([[[1, 2]]] : List (List (List ℝ))), ∃ row ∈ seq, row.length ≠ 1)
    ∧ forward_propagate_checked demo_layer [[[1, 2]]]
        { batch_samples := 1, layer_timesteps := 10 }
        = Except.error LSTMError.DimensionMismatch
    ∧ ((1 : ℕ) ≠ ([] : List (List (List ℝ))).length ∨ (10 : ℕ) ≠ demo_layer.timesteps)
    ∧ forward_propagate_checked demo_layer []
        { batch_samples := 1, layer_timesteps := 10 }
        = Except.error LSTMError.DimensionMismatch := by
  have hrow : ∃ seq ∈ ([[[1, 2]]] : List (List (List ℝ))), ∃ row ∈ seq, row.length ≠ 1 := by
    refine ⟨[[1, 2]], by simp, [1, 2], by simp, by simp⟩
  have hmis : (({ batch_samples := 1, layer_timesteps := 10 } :
      ForwardPropagation).batch_samples ≠ ([] : List (List (List ℝ))).length
      ∨ ({ batch_samples := 1, layer_timesteps := 10 } :
          ForwardPropagation).layer_timesteps ≠ demo_layer.timesteps) := by
    left
    simp
  exact ⟨hrow, claim_C6.1 1 1 demo_layer [[[1, 2]]] _ hrow, hmis,
    claim_C6.2.1 1 1 demo_layer [] _ hmis⟩

/-- Claim C5: altering inputs only at steps strictly greater than t leaves
every cached state at steps up to t unchanged: forward propagation of two
input sequences that agree on their first t steps produces identical hidden
and cell states (indeed identical caches) on those t steps. -/
theorem claim_C5 {m n : ℕ} (L : LongShortTermMemoryLayer m n)
    (s : (Fin n → ℝ) × (Fin n → ℝ)) (inputs1 inputs2 : List (Fin m → ℝ))
    (t : ℕ) (hag : inputs1.take t = inputs2.take t) :
    (forward_propagate L inputs1 s).take t
      = (forward_propagate L inputs2 s).take t := by
  induction inputs1 generalizing inputs2 t s with
  | nil =>
    cases t with
    | zero => simp
    | succ k =>
      cases inputs2 with
      | nil => rfl
      | cons y ys => simp at hag
  | cons x xs ih =>
    cases t with
    | zero => simp
    | succ k =>
      cases inputs2 with
      | nil => simp at hag
      | cons y ys =>
        simp only [List.take_succ_cons, List.cons.injEq] at hag
        obtain ⟨rfl, htail⟩ := hag
        simp only [forward_propagate, List.take_succ_cons]
        congr 1
        exact ih _ _ _ htail

/-- Witness for claim C5: two sequences over a one-neuron layer that agree on
the first step but differ on the second produce the same first cached step. -/
theorem claim_C5_witness :
    (([fun _ => 1, fun _ => 2] : List (Fin 1 → ℝ)).take 1
        = ([fun _ => 1, fun _ => 3] : List (Fin 1 → ℝ)).take 1)
    ∧ (forward_propagate demo_layer [fun _ => 1, fun _ => 2]
          (demo_layer.hidden_states, demo_layer.cell_states)).take 1
        = (forward_propagate demo_layer [fun _ => 1, fun _ => 3]
            (demo_layer.hidden_states, demo_layer.cell_states)).take 1 :=
  ⟨rfl, claim_C5 demo_layer (demo_layer.hidden_states, demo_layer.cell_states)
    [fun _ => 1, fun _ => 2] [fun _ => 1, fun _ => 3] 1 rfl⟩

/-- The cache entry at position t of forward propagation is the recurrent
step applied to the input at position t and the state produced at position
t - 1 (or the initial state when t = 0). -/
theorem forward_propagate_getD_eq_step {m n : ℕ} (L : LongShortTermMemoryLayer m n) :
    ∀ (inputs : List (Fin m → ℝ)) (s : (Fin n → ℝ) × (Fin n → ℝ)) (t : ℕ),
      t < inputs.length →
      (forward_propagate L inputs s).getD t default
        = lstm_step_cache L (inputs.getD t (fun _ => 0))
            (if t = 0 then s.1
             else ((forward_propagate L inputs s).getD (t - 1) default).hidden_states)
            (if t = 0 then s.2
             else ((forward_propagate L inputs s).getD (t - 1) default).cell_states) := by
  intro inputs
  induction inputs with
  | nil => intro s t ht; simp at ht
  | cons x xs ih =>
    intro s t ht
    cases t with
    | zero => simp [forward_propagate]
    | succ k =>
      have hk : k < xs.length := by simpa using ht
      have hih := ih (((lstm_step_cache L x s.1 s.2).hidden_states,
        (lstm_step_cache L x s.1 s.2).cell_states)) k hk
      cases k with
      | zero =>
        simpa [forward_propagate] using hih
      | succ k2 =>
        simpa [forward_propagate] using hih

/-- Claim C3: at every timestep, the cached step of forward propagation is
the recurrent step of the state produced at the immediately preceding step,
and the recurrent step first computes each gate's pre-activation combination
as input times W plus previous hidden times U plus b, applies the recurrent
activation to the forget, input and output combinations and the cell
activation to the state combination, then forms
new cell state = forget gate times previous cell plus input gate times state
activation, and new hidden state = output gate times the cell activation of
the new cell state, all elementwise. -/
theorem claim_C3 {m n : ℕ} (L : LongShortTermMemoryLayer m n)
    (inputs : List (Fin m → ℝ)) (s : (Fin n → ℝ) × (Fin n → ℝ)) (t : ℕ)
    (ht : t < inputs.length) :
    ((forward_propagate L inputs s).getD t default
        = lstm_step_cache L (inputs.getD t (fun _ => 0))
            (if t = 0 then s.1
             else ((forward_propagate L inputs s).getD (t - 1) default).hidden_states)
            (if t = 0 then s.2
             else ((forward_propagate L inputs s).getD (t - 1) default).cell_states))
    ∧ (∀ (x : Fin m → ℝ) (W : Fin m → Fin n → ℝ) (U : Fin n → Fin n → ℝ)
          (b : Fin n → ℝ) (h : Fin n → ℝ),
        calculate_forget_combinations x W U b h
            = (fun j => (∑ i, x i * W i j) + (∑ i, h i * U i j) + b j)
        ∧ calculate_input_combinations x W U b h
            = (fun j => (∑ i, x i * W i j) + (∑ i, h i * U i j) + b j)
        ∧ calculate_state_combinations x W U b h
            = (fun j => (∑ i, x i * W i j) + (∑ i, h i * U i j) + b j)
        ∧ calculate_output_combinations x W U b h
            = (fun j => (∑ i, x i * W i j) + (∑ i, h i * U i j) + b j))
    ∧ (∀ (x : Fin m → ℝ) (h c : Fin n → ℝ),
        (lstm_step_cache L x h c).forget_combinations
            = calculate_forget_combinations x L.params.forget_weights
                L.params.forget_recurrent_weights L.params.forget_biases h
        ∧ (lstm_step_cache L x h c).input_combinations
            = calculate_input_combinations x L.params.input_weights
                L.params.input_recurrent_weights L.params.input_biases h
        ∧ (lstm_step_cache L x h c).state_combinations
            = calculate_state_combinations x L.params.state_weights
                L.params.state_recurrent_weights L.params.state_biases h
        ∧ (lstm_step_cache L x h c).output_combinations
            = calculate_output_combinations x L.params.output_weights
                L.params.output_recurrent_weights L.params.output_biases h
        ∧ (lstm_step_cache L x h c).forget_activations
            = (fun j => activation L.recurrent_activation_function
                ((lstm_step_cache L x h c).forget_combinations j))
        ∧ (lstm_step_cache L x h c).input_activations
            = (fun j => activation L.recurrent_activation_function
                ((lstm_step_cache L x h c).input_combinations j))
        ∧ (lstm_step_cache L x h c).output_activations
            = (fun j => activation L.recurrent_activation_function
                ((lstm_step_cache L x h c).output_combinations j))
        ∧ (lstm_step_cache L x h c).state_activations
            = (fun j => activation L.activation_function
                ((lstm_step_cache L x h c).state_combinations j))
        ∧ (lstm_step_cache L x h c).cell_states
            = (fun j => (lstm_step_cache L x h c).forget_activations j * c j
                + (lstm_step_cache L x h c).input_activations j
                    * (lstm_step_cache L x h c).state_activations j)
        ∧ (lstm_step_cache L x h c).hidden_states
            = (fun j => (lstm_step_cache L x h c).output_activations j
                * activation L.activation_function
                    ((lstm_step_cache L x h c).cell_states j))) := by
  refine ⟨forward_propagate_getD_eq_step L inputs s t ht,
    fun x W U b h => ⟨rfl, rfl, rfl, rfl⟩,
    fun x h c => ⟨rfl, rfl, rfl, rfl, rfl, rfl, rfl, rfl, rfl, rfl⟩⟩

/-- Witness for claim C3: the first cached step of the demo layer on the
single input 2 is the recurrent step applied to the initial state. -/
theorem claim_C3_witness :
    0 < ([fun _ => 2] : List (Fin 1 → ℝ)).length
    ∧ (forward_propagate demo_layer [fun _ => 2]
          (demo_layer.hidden_states, demo_layer.cell_states)).getD 0 default
        = lstm_step_cache demo_layer (fun _ => 2)
            demo_layer.hidden_states demo_layer.cell_states := by
  constructor
  · simp
  · have h := (claim_C3 demo_layer [fun _ => 2]
      (demo_layer.hidden_states, demo_layer.cell_states) 0 (by simp)).1
    simpa using h

/-- Claim C2: the error-gradient computation processes the timesteps of each
sample in reverse order starting from zero accumulators, and every entry of
each of the twelve gradient components is the sum over all batch samples and
all timesteps of the corresponding contribution: input times gate error for
the four weight gradients, previous hidden times gate error for the four
recurrent-weight gradients and the bare gate error for the four bias
gradients; the resulting structure has exactly the parameter shapes (it is an
LSTMParams value). -/
theorem claim_C2 {m n : ℕ} (L : LongShortTermMemoryLayer m n)
    (batch : List (List (Fin m → ℝ) × List (Fin n → ℝ)))
    (s : (Fin n → ℝ) × (Fin n → ℝ)) :
    (∀ ins ds, sample_contributions L ins ds s
        = backward_pass L ((forward_propagate L ins s).zip ds).reverse
            (fun _ => 0) (fun _ => 0) (fun _ => 0))
    ∧ (∀ (i : Fin m) (j : Fin n),
        (calculate_error_gradient L batch s).forget_weights i j
          = (batch.map (fun b => ((sample_contributions L b.1 b.2 s).map
              (fun c => c.input i * c.errors.forget j)).sum)).sum
        ∧ (calculate_error_gradient L batch s).input_weights i j
          = (batch.map (fun b => ((sample_contributions L b.1 b.2 s).map
              (fun c => c.input i * c.errors.input j)).sum)).sum
        ∧ (calculate_error_gradient L batch s).state_weights i j
          = (batch.map (fun b => ((sample_contributions L b.1 b.2 s).map
              (fun c => c.input i * c.errors.state j)).sum)).sum
        ∧ (calculate_error_gradient L batch s).output_weights i j
          = (batch.map (fun b => ((sample_contributions L b.1 b.2 s).map
              (fun c => c.input i * c.errors.output j)).sum)).sum)
    ∧ (∀ (i : Fin n) (j : Fin n),
        (calculate_error_gradient L batch s).forget_recurrent_weights i j
          = (batch.map (fun b => ((sample_contributions L b.1 b.2 s).map
              (fun c => c.prev_hidden i * c.errors.forget j)).sum)).sum
        ∧ (calculate_error_gradient L batch s).input_recurrent_weights i j
          = (batch.map (fun b => ((sample_contributions L b.1 b.2 s).map
              (fun c => c.prev_hidden i * c.errors.input j)).sum)).sum
        ∧ (calculate_error_gradient L batch s).state_recurrent_weights i j
          = (batch.map (fun b => ((sample_contributions L b.1 b.2 s).map
              (fun c => c.prev_hidden i * c.errors.state j)).sum)).sum
        ∧ (calculate_error_gradient L batch s).output_recurrent_weights i j
          = (batch.map (fun b => ((sample_contributions L b.1 b.2 s).map
              (fun c => c.prev_hidden i * c.errors.output j)).sum)).sum)
    ∧ (∀ j : Fin n,
        (calculate_error_gradient L batch s).forget_biases j
          = (batch.map (fun b => ((sample_contributions L b.1 b.2 s).map
              (fun c => c.errors.forget j)).sum)).sum
        ∧ (calculate_error_gradient L batch s).input_biases j
          = (batch.map (fun b => ((sample_contributions L b.1 b.2 s).map
              (fun c => c.errors.input j)).sum)).sum
        ∧ (calculate_error_gradient L batch s).state_biases j
          = (batch.map (fun b => ((sample_contributions L b.1 b.2 s).map
              (fun c => c.errors.state j)).sum)).sum
        ∧ (calculate_error_gradient L batch s).output_biases j
          = (batch.map (fun b => ((sample_contributions L b.1 b.2 s).map
              (fun c => c.errors.output j)).sum)).sum) := by
  refine ⟨fun ins ds => rfl, fun i j => ?_, fun i j => ?_, fun j => ?_⟩
  · refine ⟨Eq.trans (fold_outer_apply
        ((batch.map (fun b => sample_contributions L b.1 b.2 s)).flatten)
        (fun c i j => c.input i * c.errors.forget j) i j) ?_,
      Eq.trans (fold_outer_apply
        ((batch.map (fun b => sample_contributions L b.1 b.2 s)).flatten)
        (fun c i j => c.input i * c.errors.input j) i j) ?_,
      Eq.trans (fold_outer_apply
        ((batch.map (fun b => sample_contributions L b.1 b.2 s)).flatten)
        (fun c i j => c.input i * c.errors.state j) i j) ?_,
      Eq.trans (fold_outer_apply
        ((batch.map (fun b => sample_contributions L b.1 b.2 s)).flatten)
        (fun c i j => c.input i * c.errors.output j) i j) ?_⟩ <;>
      · rw [sum_map_flatten, List.map_map]
        rfl
  · refine ⟨Eq.trans (fold_outer_apply
        ((batch.map (fun b => sample_contributions L b.1 b.2 s)).flatten)
        (fun c i j => c.prev_hidden i * c.errors.forget j) i j) ?_,
      Eq.trans (fold_outer_apply
        ((batch.map (fun b => sample_contributions L b.1 b.2 s)).flatten)
        (fun c i j => c.prev_hidden i * c.errors.input j) i j) ?_,
      Eq.trans (fold_outer_apply
        ((batch.map (fun b => sample_contributions L b.1 b.2 s)).flatten)
        (fun c i j => c.prev_hidden i * c.errors.state j) i j) ?_,
      Eq.trans (fold_outer_apply
        ((batch.map (fun b => sample_contributions L b.1 b.2 s)).flatten)
        (fun c i j => c.prev_hidden i * c.errors.output j) i j) ?_⟩ <;>
      · rw [sum_map_flatten, List.map_map]
        rfl
  · refine ⟨Eq.trans (fold_bias_apply
        ((batch.map (fun (b : List (Fin m → ℝ) × List (Fin n → ℝ)) => sample_contributions L b.1 b.2 s)).flatten)
        (fun c j => c.errors.forget j) j) ?_,
      Eq.trans (fold_bias_apply
        ((batch.map (fun (b : List (Fin m → ℝ) × List (Fin n → ℝ)) => sample_contributions L b.1 b.2 s)).flatten)
        (fun c j => c.errors.input j) j) ?_,
      Eq.trans (fold_bias_apply
        ((batch.map (fun (b : List (Fin m → ℝ) × List (Fin n → ℝ)) => sample_contributions L b.1 b.2 s)).flatten)
        (fun c j => c.errors.state j) j) ?_,
      Eq.trans (fold_bias_apply
        ((batch.map (fun (b : List (Fin m → ℝ) × List (Fin n → ℝ)) => sample_contributions L b.1 b.2 s)).flatten)
        (fun c j => c.errors.output j) j) ?_⟩ <;>
      · rw [sum_map_flatten, List.map_map]
        rfl

/-- Decoding the encoded name of an activation variant recovers the variant. -/
theorem from_string_write_id (a : ActivationFunction) :
    activation_function_from_string (write_activation_function a) = Except.ok a := by
  cases a <;> rfl

/-- A successfully decoded activation name re-encodes to the same string. -/
theorem from_string_ok_write (s : String) (a : ActivationFunction)
    (h : activation_function_from_string s = Except.ok a) :
    write_activation_function a = s := by
  unfold activation_function_from_string at h
  by_cases h1 : s = "Threshold"
  · rw [if_pos h1] at h; injection h with h0; subst h0; rw [h1]; rfl
  rw [if_neg h1] at h
  by_cases h2 : s = "SymmetricThreshold"
  · rw [if_pos h2] at h; injection h with h0; subst h0; rw [h2]; rfl
  rw [if_neg h2] at h
  by_cases h3 : s = "Logistic"
  · rw [if_pos h3] at h; injection h with h0; subst h0; rw [h3]; rfl
  rw [if_neg h3] at h
  by_cases h4 : s = "HyperbolicTangent"
  · rw [if_pos h4] at h; injection h with h0; subst h0; rw [h4]; rfl
  rw [if_neg h4] at h
  by_cases h5 : s = "Linear"
  · rw [if_pos h5] at h; injection h with h0; subst h0; rw [h5]; rfl
  rw [if_neg h5] at h
  by_cases h6 : s = "RectifiedLinear"
  · rw [if_pos h6] at h; injection h with h0; subst h0; rw [h6]; rfl
  rw [if_neg h6] at h
  by_cases h7 : s = "ExponentialLinear"
  · rw [if_pos h7] at h; injection h with h0; subst h0; rw [h7]; rfl
  rw [if_neg h7] at h
  by_cases h8 : s = "ScaledExponentialLinear"
  · rw [if_pos h8] at h; injection h with h0; subst h0; rw [h8]; rfl
  rw [if_neg h8] at h
  by_cases h9 : s = "SoftPlus"
  · rw [if_pos h9] at h; injection h with h0; subst h0; rw [h9]; rfl
  rw [if_neg h9] at h
  by_cases h10 : s = "SoftSign"
  · rw [if_pos h10] at h; injection h with h0; subst h0; rw [h10]; rfl
  rw [if_neg h10] at h
  by_cases h11 : s = "HardSigmoid"
  · rw [if_pos h11] at h; injection h with h0; subst h0; rw [h11]; rfl
  rw [if_neg h11] at h
  exact absurd h (by simp)

/-- Claim C7: serialization and deserialization of the layer parameter
document are mutually inverse: deserializing a serialized layer reproduces
all weight, recurrent-weight and bias values, the timesteps and both
activation-function selections, and serializing a successfully deserialized
document reproduces the document exactly (the model carries exact values, so
agreement within floating-point precision holds as exact equality). -/
theorem claim_C7 :
    (∀ (m n : ℕ) (L : LongShortTermMemoryLayer m n),
      ∃ L2 : LongShortTermMemoryLayer m n,
        from_XML (write_XML L) = Except.ok L2
        ∧ L2.params = L.params
        ∧ L2.timesteps = L.timesteps
        ∧ L2.activation_function = L.activation_function
        ∧ L2.recurrent_activation_function = L.recurrent_activation_function)
    ∧ (∀ (m n : ℕ) (doc : LSTMDocument m n) (L : LongShortTermMemoryLayer m n),
        from_XML doc = Except.ok L → write_XML L = doc) := by
  constructor
  · intro m n L
    refine Exists.intro
      { params := L.params
        hidden_states := fun _ => 0
        cell_states := fun _ => 0
        timesteps := L.timesteps
        activation_function := L.activation_function
        recurrent_activation_function := L.recurrent_activation_function
        display := true }
      ⟨?_, rfl, rfl, rfl, rfl⟩
    have h1 := from_string_write_id L.activation_function
    have h2 := from_string_write_id L.recurrent_activation_function
    simp only [from_XML, write_XML, write_recurrent_activation_function, h1, h2]
  · intro m n doc L h
    cases ha : activation_function_from_string doc.activation_function_element with
    | error e =>
      rw [from_XML, ha] at h
      cases activation_function_from_string doc.recurrent_activation_function_element <;>
        simp at h
    | ok a =>
      cases hr : activation_function_from_string doc.recurrent_activation_function_element with
      | error e =>
        rw [from_XML, ha, hr] at h
        simp at h
      | ok r =>
        rw [from_XML, ha, hr] at h
        injection h with h0
        subst h0
        have hw1 : write_activation_function a = doc.activation_function_element :=
          from_string_ok_write _ _ ha
        have hw2 : write_activation_function r = doc.recurrent_activation_function_element :=
          from_string_ok_write _ _ hr
        show write_XML _ = doc
        rw [write_XML]
        show LSTMDocument.mk _ _ _ _ _ _ _ _ _ _ _ _ _ _ _ = doc
        rw [show write_recurrent_activation_function r = write_activation_function r from rfl]
        rw [hw1, hw2]

/-- Witness for claim C7: the concrete demo document deserializes to the demo
layer and serializing that layer reproduces the document. -/
theorem claim_C7_witness :
    from_XML demo_document = Except.ok demo_document_layer
    ∧ write_XML demo_document_layer = demo_document := by
  have h : from_XML demo_document = Except.ok demo_document_layer := rfl
  exact ⟨h, claim_C7.2 1 1 demo_document demo_document_layer h⟩

/-- Rational bounds on exp 2. -/
theorem exp_two_bounds : (7.389 : ℝ) < Real.exp 2 ∧ Real.exp 2 < 7.3891 := by
  have he : Real.exp 2 = Real.exp 1 * Real.exp 1 := by
    rw [← Real.exp_add]
    norm_num
  have h1 := Real.exp_one_gt_d9
  have h2 := Real.exp_one_lt_d9
  constructor
  · rw [he]
    nlinarith [h1, h2, Real.exp_pos 1]
  · rw [he]
    nlinarith [h1, h2, Real.exp_pos 1]

/-- Rational bounds on the logistic sigmoid at 2. -/
theorem logistic_two_bounds :
    (0.8807 : ℝ) < 1 / (1 + Real.exp (-2))
    ∧ (1 / (1 + Real.exp (-2)) : ℝ) < 0.881 := by
  obtain ⟨ht1, ht2⟩ := exp_two_bounds
  have htpos : (0 : ℝ) < Real.exp 2 := Real.exp_pos 2
  have hs : Real.exp (-2 : ℝ) = (Real.exp 2)⁻¹ := by
    rw [← Real.exp_neg]
  have hspos : (0 : ℝ) < (Real.exp 2)⁻¹ := inv_pos.2 htpos
  have hmul : (Real.exp 2)⁻¹ * Real.exp 2 = 1 := inv_mul_cancel₀ (ne_of_gt htpos)
  have hub : (Real.exp 2)⁻¹ * 7.389 < 1 := by nlinarith
  have hlb : 1 < (Real.exp 2)⁻¹ * 7.3891 := by nlinarith
  rw [hs]
  constructor
  · rw [lt_div_iff₀ (by positivity)]
    nlinarith
  · rw [div_lt_iff₀ (by positivity)]
    nlinarith

/-- Claim C1: for an LSTM layer with one input, one neuron, one timestep,
Linear cell activation, Logistic recurrent activation, all weights 1, all
recurrent weights 0, all biases 0 and zero initial state, forward propagation
on the single input 2.0 produces forget, input and output gates equal to
sigmoid(2) = 0.8808, state activation 2, cell state 1.7616 and hidden state
1.5521, each within an absolute tolerance of 1e-3. -/
theorem claim_C1 :
    |scenario_step.forget_activations 0 - 0.8808| < 0.001
    ∧ |scenario_step.input_activations 0 - 0.8808| < 0.001
    ∧ |scenario_step.output_activations 0 - 0.8808| < 0.001
    ∧ |scenario_step.state_activations 0 - 2| < 0.001
    ∧ |scenario_step.cell_states 0 - 1.7616| < 0.001
    ∧ |scenario_step.hidden_states 0 - 1.5521| < 0.001 := by
  have hfa : scenario_step.forget_activations 0 = 1 / (1 + Real.exp (-2)) := by
    simp [scenario_step, forward_propagate, lstm_step_cache, scenario_layer,
      calculate_forget_combinations, activation, Fin.sum_univ_one]
  have hia : scenario_step.input_activations 0 = 1 / (1 + Real.exp (-2)) := by
    simp [scenario_step, forward_propagate, lstm_step_cache, scenario_layer,
      calculate_input_combinations, activation, Fin.sum_univ_one]
  have hoa : scenario_step.output_activations 0 = 1 / (1 + Real.exp (-2)) := by
    simp [scenario_step, forward_propagate, lstm_step_cache, scenario_layer,
      calculate_output_combinations, activation, Fin.sum_univ_one]
  have hsa : scenario_step.state_activations 0 = 2 := by
    simp [scenario_step, forward_propagate, lstm_step_cache, scenario_layer,
      calculate_state_combinations, activation, Fin.sum_univ_one]
  have hc : scenario_step.cell_states 0 = (1 / (1 + Real.exp (-2))) * 2 := by
    simp [scenario_step, forward_propagate, lstm_step_cache, scenario_layer,
      calculate_forget_combinations, calculate_input_combinations,
      calculate_state_combinations, activation, Fin.sum_univ_one]
  have hh : scenario_step.hidden_states 0
      = (1 / (1 + Real.exp (-2))) * ((1 / (1 + Real.exp (-2))) * 2) := by
    simp [scenario_step, forward_propagate, lstm_step_cache, scenario_layer,
      calculate_forget_combinations, calculate_input_combinations,
      calculate_state_combinations, calculate_output_combinations,
      activation, Fin.sum_univ_one]
  obtain ⟨hl, hu⟩ := logistic_two_bounds
  refine ⟨?_, ?_, ?_, ?_, ?_, ?_⟩
  · rw [hfa, abs_lt]
    constructor <;> nlinarith
  · rw [hia, abs_lt]
    constructor <;> nlinarith
  · rw [hoa, abs_lt]
    constructor <;> nlinarith
  · rw [hsa]
    norm_num
  · rw [hc, abs_lt]
    constructor <;> nlinarith
  · rw [hh, abs_lt]
    constructor <;> nlinarith

end OpenNN
